import Mathlib

/-!
# Verification of the dropshipping-detector userscript core

Shallow embedding of `src/userscript.js` (v0.6): the six e-commerce
detectors and their aggregation (`detectEcommerce`), the Antidrop API
call continuation (`callAntidropAPI`), the tier-selection policy
(`showDropshippingWarning`), and the article-grouping helpers
(`getApexDomain`, the grouping loop of `getArticlesList`).

Ambient page state (DOM, `localStorage`) is modelled as an explicit
`PageState` record holding exactly the data the detectors read.
JavaScript strings are Lean `String`s; JS `undefined`/`null` results are
`Option`s; JS numbers that the claims touch (`mark`, probabilities,
thresholds) are rationals.
-/

/-- `charsHavePre pre l` is `true` iff `pre` is a prefix of `l`. -/
def charsHavePre : List Char → List Char → Bool
  | [], _ => true
  | _ :: _, [] => false
  | a :: as, b :: bs => a = b && charsHavePre as bs

/-- `subAux n l` is `true` iff `n` occurs contiguously in `l`. -/
def subAux (n : List Char) : List Char → Bool
  | [] => charsHavePre n []
  | c :: rest => charsHavePre n (c :: rest) || subAux n rest

/-- Models JS `hay.includes(needle)`: `needle` occurs contiguously in `hay`. -/
def strIncludes (hay needle : String) : Bool := subAux needle.data hay.data

/-- Models JS `String.prototype.toLowerCase` (ASCII range, which covers every
string the detectors lower-case against their keyword lists). -/
def strLower (s : String) : String := String.mk (s.data.map Char.toLower)

/-- A `<form>` element as read by `detectCheckoutForms`: its `action`
attribute (`none` when `getAttribute` returns `null`) and its `innerText`. -/
structure FormEl where
  action : Option String
  innerText : String
  deriving DecidableEq, Repr

/-- An `<a>` element as read by `detectCartLink`: its `textContent` and its
`href` attribute (`none` when `getAttribute` returns `null`). -/
structure LinkEl where
  textContent : String
  href : Option String
  deriving DecidableEq, Repr

/-- The ambient page state the six detectors read: the `<form>` elements, the
number of elements matching `.product, .item, .product-card, .product-listing`,
the document body `innerText`, the `<a>` elements, the `localStorage`
key-value pairs, and the platform-fingerprint queries of
`detectEcommercePlatform` (one boolean per `document.querySelector` /
`classList.contains` test, in source order). -/
structure PageState where
  forms : List FormEl
  productGridCount : Nat
  bodyText : String
  links : List LinkEl
  localStorage : List (String × String)
  hasShopifyMeta : Bool
  hasWooScript : Bool
  hasMageScript : Bool
  bodyClassCmsIndex : Bool
  hasPrestaMeta : Bool
  hasBigcommerceScript : Bool
  hasWixstoresScript : Bool
  hasWixMeta : Bool
  hasSquarespaceMeta : Bool
  deriving DecidableEq, Repr

/-- Keyword list of `detectCheckoutForms` (lines 514-520). -/
def checkoutKeywords : List String :=
  ["checkout", "cart", "add to cart",
   "panier", "commander", "ajouter au panier",
   "warenkorb", "zur kasse", "in den warenkorb",
   "carrito", "finalizar compra", "añadir al carrito",
   "carrello", "procedi al pagamento", "aggiungi al carrello"]

/-- `detectCheckoutForms` (lines 512-527): some form whose `action` attribute
(defaulted to `""` when absent; matched case-sensitively, as in the source) or
lower-cased `innerText` contains a checkout keyword. -/
def detectCheckoutForms (p : PageState) : Bool :=
  p.forms.any fun form =>
    let action := form.action.getD ""
    let text := strLower form.innerText
    checkoutKeywords.any fun keyword =>
      strIncludes action keyword || strIncludes text keyword

/-- Keyword list of `detectProductListings` (lines 532-538). -/
def productKeywords : List String :=
  ["product", "item", "produit", "article", "produkt", "artikel",
   "producto", "artículo", "prodotto", "articolo"]

/-- `detectProductListings` (lines 530-545): more than 3 product-grid
elements, OR the lower-cased body text contains a product keyword. -/
def detectProductListings (p : PageState) : Bool :=
  let bodyText := strLower p.bodyText
  let productsDetected := productKeywords.any fun keyword => strIncludes bodyText keyword
  decide (p.productGridCount > 3) || productsDetected

/-- Keyword list of `detectCartLink` (lines 550-556). -/
def cartLinkKeywords : List String :=
  ["cart", "checkout", "panier", "commander", "warenkorb", "kasse",
   "carrito", "comprar", "carrello", "pagamento"]

/-- `detectCartLink` (lines 548-561): some `<a>` whose lower-cased
`textContent` or raw `href` (optional-chained: `undefined` is falsy) contains
a cart keyword. -/
def detectCartLink (p : PageState) : Bool :=
  p.links.any fun link =>
    cartLinkKeywords.any fun keyword =>
      strIncludes (strLower link.textContent) keyword ||
      (match link.href with
       | some h => strIncludes h keyword
       | none => false)

/-- ASCII digit test, models the regex class `\d`. -/
def isDigitCh (c : Char) : Bool := '0' ≤ c && c ≤ '9'

/-- Remainders after consuming 1 to 3 digits: models `\d{1,3}`. -/
def digits13 : List Char → List (List Char)
  | [] => []
  | d1 :: rest1 =>
    if isDigitCh d1 then
      rest1 ::
      (match rest1 with
       | [] => []
       | d2 :: rest2 =>
         if isDigitCh d2 then
           rest2 ::
           (match rest2 with
            | [] => []
            | d3 :: rest3 => if isDigitCh d3 then [rest3] else [])
         else [])
    else []

/-- A grouping separator in the price regex: a literal character (`,`) or the
regex `.` (any character except a line terminator, as in the `€` branch). -/
inductive GroupSep where
  | lit (c : Char)
  | anyChar
  deriving DecidableEq, Repr

/-- Whether a grouping separator accepts a character. -/
def GroupSep.accepts : GroupSep → Char → Bool
  | .lit c, d => c = d
  | .anyChar, d => d ≠ '\n' && d ≠ '\r'

/-- Remainders after consuming zero or more `sep`-plus-3-digit groups:
models `(,\d{3})*` (and `(.\d{3})*` in the `€` branch). -/
def groupSepStar (sep : GroupSep) : List Char → List (List Char)
  | c :: d1 :: d2 :: d3 :: rest =>
    if sep.accepts c && isDigitCh d1 && isDigitCh d2 && isDigitCh d3 then
      (c :: d1 :: d2 :: d3 :: rest) :: groupSepStar sep rest
    else [c :: d1 :: d2 :: d3 :: rest]
  | s => [s]

/-- Remainders after the optional decimal part: models `(\.\d{2})?`
(and `(,\d{2})?` in the `€` branch). -/
def optDecimals (dsep : Char) : List Char → List (List Char)
  | c :: d1 :: d2 :: rest =>
    if c = dsep && isDigitCh d1 && isDigitCh d2 then
      [c :: d1 :: d2 :: rest, rest]
    else [c :: d1 :: d2 :: rest]
  | s => [s]

/-- One alternation branch of the price regex matches starting at `s`:
currency symbol, 1-3 digits, any number of separator-grouped digit triples,
an optional decimal part. -/
def priceBranchAt (sym : Char) (gsep : GroupSep) (dsep : Char) (s : List Char) : Bool :=
  match s with
  | [] => false
  | c :: rest =>
    c = sym &&
    (digits13 rest).any fun r1 =>
      (groupSepStar gsep r1).any fun r2 =>
        !(optDecimals dsep r2).isEmpty

/-- All suffixes of a character list (the candidate match positions of an
unanchored regex `test`). -/
def charTails : List Char → List (List Char)
  | [] => [[]]
  | c :: rest => (c :: rest) :: charTails rest

/-- Models `priceRegex.test(bodyText)` with
`priceRegex = /(\$\d{1,3}(,\d{3})*(\.\d{2})?)|(\€\d{1,3}(.\d{3})*(,\d{2})?)|(\£\d{1,3}(,\d{3})*(\.\d{2})?)/`:
some position of the text starts a match of one of the three branches. -/
def priceRegexTest (s : String) : Bool :=
  (charTails s.data).any fun t =>
    priceBranchAt '$' (.lit ',') '.' t ||
    priceBranchAt '€' .anyChar ',' t ||
    priceBranchAt '£' (.lit ',') '.' t

/-- `detectPrices` (lines 564-568): the price regex matches the body text. -/
def detectPrices (p : PageState) : Bool := priceRegexTest p.bodyText

/-- Key list of `detectCartInLocalStorage` (line 572). -/
def cartKeys : List String :=
  ["cart", "shoppingCart", "cartItems", "panier", "warenkorb", "carrito", "carrello"]

/-- Models `localStorage.getItem(key)`: the stored string, or `none` for JS
`null` when the key is absent. -/
def getItem (storage : List (String × String)) (key : String) : Option String :=
  (storage.find? fun kv => kv.1 == key).map Prod.snd

/-- `detectCartInLocalStorage` (lines 571-574):
`cartKeys.some(key => localStorage.getItem(key))`. The JS truthiness test is
on the returned VALUE: `null` (absent key) and the empty string are both
falsy, any non-empty string is truthy. -/
def detectCartInLocalStorage (p : PageState) : Bool :=
  cartKeys.any fun key =>
    match getItem p.localStorage key with
    | none => false
    | some v => !(v == "")

/-- `detectEcommercePlatform` (lines 577-614): first matching platform
fingerprint, in source order, else `none`. -/
def detectEcommercePlatform (p : PageState) : Option String :=
  if p.hasShopifyMeta then some "Shopify platform detected"
  else if p.hasWooScript then some "WooCommerce platform detected"
  else if p.hasMageScript || p.bodyClassCmsIndex then some "Magento platform detected"
  else if p.hasPrestaMeta then some "PrestaShop platform detected"
  else if p.hasBigcommerceScript then some "BigCommerce platform detected"
  else if p.hasWixstoresScript || p.hasWixMeta then some "Wix platform detected"
  else if p.hasSquarespaceMeta then some "Squarespace Commerce platform detected"
  else none

/-- The aggregate detection outcome: the `isEcommerce` flag and the ordered
`reasons` list built by `detectEcommerce`. -/
structure DetectionResult where
  isEcommerce : Bool
  reasons : List String
  deriving DecidableEq, Repr

/-- `detectEcommerce` (lines 31-71): runs the six detectors in source order,
pushing each firing detector's reason and setting `isEcommerce`. -/
def detectEcommerceResult (p : PageState) : DetectionResult :=
  let acc0 : Bool × List String := (false, [])
  let acc1 := if detectCheckoutForms p then
      (true, acc0.2 ++ ["Checkout or cart form detected"]) else acc0
  let acc2 := if detectProductListings p then
      (true, acc1.2 ++ ["Multiple product listings detected (CSS class-based detection)"]) else acc1
  let acc3 := if detectCartLink p then
      (true, acc2.2 ++ ["Cart link detected"]) else acc2
  let acc4 := if detectPrices p then
      (true, acc3.2 ++ ["Product price detected"]) else acc3
  let acc5 := if detectCartInLocalStorage p then
      (true, acc4.2 ++ ["Cart data found in localStorage"]) else acc4
  let acc6 := match detectEcommercePlatform p with
    | some r => (true, acc5.2 ++ [r])
    | none => acc5
  { isEcommerce := acc6.1, reasons := acc6.2 }

/-- Lines 72-76 of `detectEcommerce`: `callAntidropAPI()` is invoked iff
`isEcommerce` ended up `true`. -/
def detectEcommerceCallsAPI (p : PageState) : Bool :=
  (detectEcommerceResult p).isEcommerce

/-- Line 17: `PROBABILITY_THRESHOLD_BANNER = 50`. -/
def PROBABILITY_THRESHOLD_BANNER : ℚ := 50

/-- Line 18: `PROBABILITY_THRESHOLD_OVERLAY = 90`. -/
def PROBABILITY_THRESHOLD_OVERLAY : ℚ := 90

/-- The presentation tier selected by `showDropshippingWarning`:
nothing rendered, the top banner, or the full-screen overlay. -/
inductive Tier where
  | Suppressed
  | Banner
  | Overlay
  deriving DecidableEq, Repr

/-- Line 120: `probability = (mark / 5) * 100`. -/
def probabilityOfMark (mark : ℚ) : ℚ := (mark / 5) * 100

/-- The branch structure of `showDropshippingWarning` (lines 123-135) as a
function of the probability, with the two thresholds as parameters:
below `tBanner` return with nothing rendered; in `[tBanner, tOverlay)` show
the banner; at `tOverlay` or above show the overlay.  The final `Suppressed`
is the fall-through of the `if`/`else if` chain (unreachable when
`tBanner ≤ tOverlay`). -/
def tierOfWith (tBanner tOverlay probability : ℚ) : Tier :=
  if probability < tBanner then Tier.Suppressed
  else if tBanner ≤ probability ∧ probability < tOverlay then Tier.Banner
  else if tOverlay ≤ probability then Tier.Overlay
  else Tier.Suppressed

/-- Tier selection at the configured thresholds (50, 90). -/
def tierOf (probability : ℚ) : Tier :=
  tierOfWith PROBABILITY_THRESHOLD_BANNER PROBABILITY_THRESHOLD_OVERLAY probability

/-- `showDropshippingWarning` (lines 119-136), as the tier it selects for a
given `mark`. -/
def showDropshippingWarningTier (mark : ℚ) : Tier :=
  tierOf (probabilityOfMark mark)

/-- The UI element `showDropshippingWarning` inserts into the document:
`none` when the probability is below the banner threshold (early return at
line 125), otherwise the banner or the overlay. -/
def showDropshippingWarningUI (mark : ℚ) : Option Tier :=
  match showDropshippingWarningTier mark with
  | Tier.Suppressed => none
  | t => some t

/-- One technology entry of the Scan Response (`website.technos`). -/
structure Techno where
  name : String
  description : String
  deriving DecidableEq, Repr

/-- One similar-article entry of the Scan Response. -/
structure Article where
  url : String
  title : String
  price : String
  images : List String
  deriving DecidableEq, Repr

/-- The `website` object of the Scan Response (optional `technos`). -/
structure Website where
  technos : Option (List Techno)
  deriving DecidableEq, Repr

/-- The parsed Scan Response object; every field is optional (absent JSON
fields are `none`). -/
structure ScanData where
  mark : Option ℚ
  website : Option Website
  similarArticles : Option (List Article)
  lastSearchDate : Option String
  deriving DecidableEq, Repr

/-- The value `response.json()` settles to: a rejection (body is not valid
JSON), a JSON value that is falsy as a JS object test (`null`, etc.), or a
response object. -/
inductive JsonBody where
  | unparseable
  | nullValue
  | object (d : ScanData)
  deriving DecidableEq, Repr

/-- The outcome of the `fetch` call.  Per the Fetch standard the promise
rejects only on a network failure; an HTTP error status still resolves to a
response, whose body `response.json()` then parses (successfully or not)
independently of the status code. -/
inductive FetchOutcome where
  | networkError (message : String)
  | response (status : Nat) (body : JsonBody)
  deriving DecidableEq, Repr

/-- The externally visible effect of one run of `callAntidropAPI`'s promise
chain: whether the `.catch` handler logged an error, whether
`showDropshippingWarning` was invoked, which UI element (if any) was
inserted into the document, and whether an exception escaped to the host
page. -/
structure PresenterEffect where
  loggedError : Bool
  ranShowWarning : Bool
  warningShown : Option Tier
  raised : Bool
  deriving DecidableEq, Repr

/-- Models JS `data.mark > 0`: `undefined > 0` and `null > 0` are `false`. -/
def jsMarkPositive : Option ℚ → Bool
  | some m => decide (0 < m)
  | none => false

/-- `callAntidropAPI` (lines 93-116), as the effect of its
`fetch(...).then(r => r.json()).then(data => ...).catch(err => log)` chain on
each transport outcome.  A network failure or a `json()` rejection reaches
the `.catch` handler (console.error, nothing rendered); a falsy or
mark-less/non-positive-mark value reaches the debug-log branch (line 111);
a positive mark invokes `showDropshippingWarning` with the defaulted fields
(lines 104-109).  No branch rethrows, so nothing escapes to the host page. -/
def callAntidropAPI : FetchOutcome → PresenterEffect
  | .networkError _ =>
    { loggedError := true, ranShowWarning := false, warningShown := none, raised := false }
  | .response _ body =>
    match body with
    | .unparseable =>
      { loggedError := true, ranShowWarning := false, warningShown := none, raised := false }
    | .nullValue =>
      { loggedError := false, ranShowWarning := false, warningShown := none, raised := false }
    | .object d =>
      if jsMarkPositive d.mark then
        { loggedError := false, ranShowWarning := true,
          warningShown := showDropshippingWarningUI ((d.mark).getD 0), raised := false }
      else
        { loggedError := false, ranShowWarning := false, warningShown := none, raised := false }

/-- Models `new URL(url).hostname` step 1: drop everything through the first
`://`. -/
def afterScheme : List Char → List Char
  | ':' :: '/' :: '/' :: rest => rest
  | _ :: rest => afterScheme rest
  | [] => []

/-- Models `new URL(url).hostname` step 2: the host part ends at the first
path, port, query or fragment delimiter. -/
def hostChars : List Char → List Char
  | [] => []
  | c :: rest =>
    if c = '/' || c = ':' || c = '?' || c = '#' then []
    else c :: hostChars rest

/-- Models `new URL(url).hostname` for `scheme://host[:port][/path...]`
URLs (the shape of every article URL the grouping helper receives). -/
def hostnameOf (url : String) : String :=
  String.mk (hostChars (afterScheme url.data))

/-- Models JS `domain.split('.')`: split on every dot, keeping empty
segments. -/
def splitDotAux (cur : List Char) : List Char → List String
  | [] => [String.mk cur.reverse]
  | c :: rest =>
    if c = '.' then String.mk cur.reverse :: splitDotAux [] rest
    else splitDotAux (c :: cur) rest

/-- `domain.split('.')` on a string. -/
def splitDot (s : String) : List String := splitDotAux [] s.data

/-- Models JS array indexing `parts[i]` inside string concatenation: an
out-of-bounds read yields `undefined`, which stringifies to `"undefined"`
when concatenated with a string. -/
def jsIndex (parts : List String) (i : Nat) : String :=
  (parts.get? i).getD "undefined"

/-- `getApexDomain` (lines 499-509): split the hostname on dots, reverse;
keep three labels when there are at least three and the second one (from the
end) is `co` or `com`, else keep two.  (The JS `parts[1] === 'co'` comparison
is `false` when `parts[1]` is `undefined`, which `jsIndex` renders as the
string `"undefined"`; the guard `parts.length >= 3` makes the two
behaviours agree.) -/
def getApexDomain (url : String) : String :=
  let domain := hostnameOf url
  let parts := (splitDot domain).reverse
  if parts.length ≥ 3 ∧ (jsIndex parts 1 = "co" ∨ jsIndex parts 1 = "com") then
    jsIndex parts 2 ++ "." ++ jsIndex parts 1 ++ "." ++ jsIndex parts 0
  else
    jsIndex parts 1 ++ "." ++ jsIndex parts 0

/-- One step of the grouping loop of `getArticlesList` (lines 416-424):
`groupedArticles[apexDomain]` is created on first sight (JS object keys of
this non-numeric shape keep insertion order) and the article is pushed onto
its group. -/
def groupStep (groups : List (String × List Article)) (article : Article) :
    List (String × List Article) :=
  let apex := getApexDomain article.url
  if apex ∈ groups.map Prod.fst then
    groups.map fun g => if g.1 = apex then (g.1, g.2 ++ [article]) else g
  else
    groups ++ [(apex, [article])]

/-- The grouping loop of `getArticlesList` (lines 414-424): fold the articles
into an insertion-ordered association list keyed by apex domain, exactly as
the JS object plus `Object.keys` insertion order produces. -/
def groupByApexDomain (articles : List Article) : List (String × List Article) :=
  articles.foldl groupStep []

/-- The group stored under key `d`, empty when `d` was never seen. -/
def groupMembers (groups : List (String × List Article)) (d : String) : List Article :=
  match groups.find? (fun g => g.1 == d) with
  | some g => g.2
  | none => []

/-- Domains of the articles in first-seen order (the expected key order). -/
def firstSeenDomains (articles : List Article) : List String :=
  (articles.map fun a => getApexDomain a.url).foldl
    (fun acc d => if d ∈ acc then acc else acc ++ [d]) []

/-- The world the userscript can observe or mutate: the readable page state
and the list of UI nodes appended to `document.body` (which only the
presenter ever extends). -/
structure World where
  page : PageState
  hostBody : List String
  deriving DecidableEq, Repr

/-- The detection step as a transition on the world: `detectEcommerce`'s six
detectors perform only reads (`querySelectorAll`, `innerText`,
`getAttribute`, `localStorage.getItem`, `classList.contains`), so the
faithful embedding returns the world unchanged next to the computed
`DetectionResult`. -/
def runDetection (w : World) : World × DetectionResult :=
  (w, detectEcommerceResult w.page)

/-- A page with none of the signals any detector looks for. -/
def emptyPage : PageState :=
  { forms := [], productGridCount := 0, bodyText := "", links := [],
    localStorage := [], hasShopifyMeta := false, hasWooScript := false,
    hasMageScript := false, bodyClassCmsIndex := false, hasPrestaMeta := false,
    hasBigcommerceScript := false, hasWixstoresScript := false,
    hasWixMeta := false, hasSquarespaceMeta := false }

/-- A page whose `localStorage` holds the key `cart` with the empty string as
its value. -/
def pageWithEmptyCartValue : PageState :=
  { emptyPage with localStorage := [("cart", "")] }

/-- First article of the grouping test fixture. -/
def exArticleA : Article :=
  { url := "https://a.shop.co.uk/x", title := "", price := "", images := [] }

/-- Second article of the grouping test fixture. -/
def exArticleB : Article :=
  { url := "https://b.shop.co.uk/y", title := "", price := "", images := [] }

/-- Third article of the grouping test fixture. -/
def exArticleX : Article :=
  { url := "https://x.example.com/z", title := "", price := "", images := [] }

/-- A Scan Response object whose `mark` field is absent. -/
def scanNoMark : ScanData :=
  { mark := none, website := none, similarArticles := none, lastSearchDate := none }

/-- A Scan Response object with `mark = 0`. -/
def scanMarkZero : ScanData :=
  { mark := some 0, website := none, similarArticles := none, lastSearchDate := none }

/-- C2: tier selection in `showDropshippingWarning` is the pure function
`tierOfWith` of the probability and the two configured thresholds; with the
default thresholds (50, 90), probability strictly below 50 selects
`Suppressed`, probability in `[50, 90)` selects `Banner`, probability at
least 90 selects `Overlay`, and the boundary values 50 and 90 land in
`Banner` and `Overlay` respectively. -/
theorem tier_selection_thresholds (p : ℚ) :
    tierOf p = tierOfWith PROBABILITY_THRESHOLD_BANNER PROBABILITY_THRESHOLD_OVERLAY p ∧
    (p < 50 → tierOf p = Tier.Suppressed) ∧
    (50 ≤ p → p < 90 → tierOf p = Tier.Banner) ∧
    (90 ≤ p → tierOf p = Tier.Overlay) ∧
    tierOf 50 = Tier.Banner ∧
    tierOf 90 = Tier.Overlay := by
  have hB : PROBABILITY_THRESHOLD_BANNER = (50 : ℚ) := rfl
  have hO : PROBABILITY_THRESHOLD_OVERLAY = (90 : ℚ) := rfl
  refine ⟨rfl, fun h => ?_, fun h1 h2 => ?_, fun h => ?_, ?_, ?_⟩ <;>
    simp only [tierOf, tierOfWith, hB, hO]
  · rw [if_pos h]
  · rw [if_neg (by linarith), if_pos ⟨h1, h2⟩]
  · rw [if_neg (by linarith), if_neg (by push_neg; intro _; linarith), if_pos h]
  · rw [if_neg (by norm_num), if_pos (by norm_num)]
  · rw [if_neg (by norm_num), if_neg (by norm_num), if_pos (by norm_num)]

/-- Witness for `tier_selection_thresholds` at the concrete probabilities
30, 60 and 95. -/
theorem tier_selection_thresholds_witness :
    tierOf 30 = Tier.Suppressed ∧ tierOf 60 = Tier.Banner ∧ tierOf 95 = Tier.Overlay :=
  ⟨(tier_selection_thresholds 30).2.1 (by norm_num),
   (tier_selection_thresholds 60).2.2.1 (by norm_num) (by norm_num),
   (tier_selection_thresholds 95).2.2.2.1 (by norm_num)⟩

/-- C3: the derived probability equals `(mark / 5) * 100`, is monotone in
`mark`, maps 0 to 0, 2.5 to 50 and 5 to 100, and stays in `[0, 100]` for a
mark on the documented 0-5 scale. -/
theorem probability_linear_monotone_range (m mB : ℚ)
    (h0 : 0 ≤ m) (h5 : m ≤ 5) (hm : m ≤ mB) :
    probabilityOfMark m = m / 5 * 100 ∧
    probabilityOfMark 0 = 0 ∧
    probabilityOfMark (5 / 2) = 50 ∧
    probabilityOfMark 5 = 100 ∧
    probabilityOfMark m ≤ probabilityOfMark mB ∧
    0 ≤ probabilityOfMark m ∧ probabilityOfMark m ≤ 100 := by
  have e : ∀ x : ℚ, probabilityOfMark x = 20 * x := fun x => by
    unfold probabilityOfMark; ring
  refine ⟨rfl, by norm_num [e], by norm_num [e], by norm_num [e], ?_, ?_, ?_⟩ <;>
    rw [e] <;> try rw [e]
  · linarith
  · linarith
  · linarith

/-- Witness for `probability_linear_monotone_range` at marks 1 and 2. -/
theorem probability_linear_monotone_range_witness :
    probabilityOfMark 1 = 1 / 5 * 100 ∧
    probabilityOfMark 0 = 0 ∧
    probabilityOfMark (5 / 2) = 50 ∧
    probabilityOfMark 5 = 100 ∧
    probabilityOfMark 1 ≤ probabilityOfMark 2 ∧
    0 ≤ probabilityOfMark 1 ∧ probabilityOfMark 1 ≤ 100 :=
  probability_linear_monotone_range 1 2 (by norm_num) (by norm_num) (by norm_num)

/-- Counterexample to C4 as stated: a non-2xx status (500) whose body parses
as JSON flows into the success branch of the promise chain, so nothing is
logged by the error handler (the claim says every transport failure,
including a non-2xx status, is logged); no warning is shown either way. -/
theorem non2xx_parseable_not_logged :
    (callAntidropAPI (FetchOutcome.response 500 (JsonBody.object scanNoMark))).loggedError
      = false ∧
    (callAntidropAPI (FetchOutcome.response 500 (JsonBody.object scanNoMark))).warningShown
      = none ∧
    (callAntidropAPI (FetchOutcome.response 500 (JsonBody.object scanNoMark))).raised
      = false := by
  refine ⟨rfl, rfl, rfl⟩

/-- C4 (amended): every rejected transport outcome - a network failure or a
malformed JSON body - is caught at the call site, logged by the `.catch`
handler, and halts processing with no warning UI; no exception ever
propagates to the host page, for any outcome.  (A non-2xx status alone is
not a rejection: its parsed body takes the success path, unlogged.) -/
theorem transport_failure_contained (r : FetchOutcome) :
    ((∃ msg, r = FetchOutcome.networkError msg) ∨
     (∃ st, r = FetchOutcome.response st JsonBody.unparseable) →
       (callAntidropAPI r).loggedError = true ∧
       (callAntidropAPI r).ranShowWarning = false ∧
       (callAntidropAPI r).warningShown = none) ∧
    (callAntidropAPI r).raised = false := by
  constructor
  · rintro (⟨msg, rfl⟩ | ⟨st, rfl⟩) <;> exact ⟨rfl, rfl, rfl⟩
  · cases r with
    | networkError msg => rfl
    | response st body =>
      cases body with
      | unparseable => rfl
      | nullValue => rfl
      | object d =>
        cases h : jsMarkPositive d.mark <;> simp [callAntidropAPI, h]

/-- Witness for `transport_failure_contained` at a concrete network
failure. -/
theorem transport_failure_contained_witness :
    (callAntidropAPI (FetchOutcome.networkError "ECONNREFUSED")).loggedError = true ∧
    (callAntidropAPI (FetchOutcome.networkError "ECONNREFUSED")).ranShowWarning = false ∧
    (callAntidropAPI (FetchOutcome.networkError "ECONNREFUSED")).warningShown = none ∧
    (callAntidropAPI (FetchOutcome.networkError "ECONNREFUSED")).raised = false :=
  ⟨((transport_failure_contained (FetchOutcome.networkError "ECONNREFUSED")).1
      (Or.inl ⟨"ECONNREFUSED", rfl⟩)).1,
   ((transport_failure_contained (FetchOutcome.networkError "ECONNREFUSED")).1
      (Or.inl ⟨"ECONNREFUSED", rfl⟩)).2.1,
   ((transport_failure_contained (FetchOutcome.networkError "ECONNREFUSED")).1
      (Or.inl ⟨"ECONNREFUSED", rfl⟩)).2.2,
   (transport_failure_contained (FetchOutcome.networkError "ECONNREFUSED")).2⟩

/-- C5: on a successful response whose `mark` is 0 or absent, no UI element
is inserted into the document; and `showDropshippingWarning` (the warning
path) runs exactly when `mark` is present and strictly positive. -/
theorem mark_zero_or_absent_no_ui (st : Nat) (d : ScanData) :
    ((d.mark = none ∨ d.mark = some 0) →
       (callAntidropAPI (FetchOutcome.response st (JsonBody.object d))).warningShown = none ∧
       (callAntidropAPI (FetchOutcome.response st (JsonBody.object d))).ranShowWarning = false) ∧
    ((callAntidropAPI (FetchOutcome.response st (JsonBody.object d))).ranShowWarning = true ↔
       ∃ m, d.mark = some m ∧ 0 < m) := by
  constructor
  · rintro (h | h) <;> simp [callAntidropAPI, h, jsMarkPositive]
  · cases hm : d.mark with
    | none => simp [callAntidropAPI, hm, jsMarkPositive]
    | some m =>
      by_cases hp : 0 < m
      · simp [callAntidropAPI, hm, jsMarkPositive, hp]
      · simp [callAntidropAPI, hm, jsMarkPositive, hp]

/-- Witness for `mark_zero_or_absent_no_ui` at status 200 and the concrete
`mark = 0` response. -/
theorem mark_zero_or_absent_no_ui_witness :
    (callAntidropAPI (FetchOutcome.response 200 (JsonBody.object scanMarkZero))).warningShown
      = none ∧
    (callAntidropAPI (FetchOutcome.response 200 (JsonBody.object scanMarkZero))).ranShowWarning
      = false :=
  (mark_zero_or_absent_no_ui 200 scanMarkZero).1 (Or.inr rfl)

/-- C7: when none of the six detectors fires, `detectEcommerce` does not
invoke `callAntidropAPI`. -/
theorem no_detector_no_api_call (p : PageState)
    (h1 : detectCheckoutForms p = false)
    (h2 : detectProductListings p = false)
    (h3 : detectCartLink p = false)
    (h4 : detectPrices p = false)
    (h5 : detectCartInLocalStorage p = false)
    (h6 : detectEcommercePlatform p = none) :
    detectEcommerceCallsAPI p = false := by
  simp [detectEcommerceCallsAPI, detectEcommerceResult, h1, h2, h3, h4, h5, h6]

/-- Witness for `no_detector_no_api_call` on the signal-free page. -/
theorem no_detector_no_api_call_witness :
    detectCheckoutForms emptyPage = false ∧
    detectProductListings emptyPage = false ∧
    detectCartLink emptyPage = false ∧
    detectPrices emptyPage = false ∧
    detectCartInLocalStorage emptyPage = false ∧
    detectEcommercePlatform emptyPage = none ∧
    detectEcommerceCallsAPI emptyPage = false :=
  ⟨by decide, by decide, by decide, by decide, by decide, by decide,
   no_detector_no_api_call emptyPage (by decide) (by decide) (by decide)
     (by decide) (by decide) (by decide)⟩

/-- Counterexample to C8 as stated: the key `cart` exists in `localStorage`
(with the empty string as value) yet `detectCartInLocalStorage` returns
`false`, because the source tests the JS truthiness of the returned value,
not the key's existence. -/
theorem cart_key_empty_value_not_detected :
    detectCartInLocalStorage pageWithEmptyCartValue = false ∧
    ("cart", "") ∈ pageWithEmptyCartValue.localStorage ∧
    "cart" ∈ cartKeys := by
  refine ⟨by decide, by decide, by decide⟩

/-- C8 (amended): `detectCartInLocalStorage` returns `true` iff at least one
of the fixed cart keys is stored with a truthy (non-empty) value. -/
theorem detectCartInLocalStorage_iff_truthy (p : PageState) :
    detectCartInLocalStorage p = true ↔
      ∃ key ∈ cartKeys, ∃ v, getItem p.localStorage key = some v ∧ v ≠ "" := by
  unfold detectCartInLocalStorage
  rw [List.any_eq_true]
  constructor
  · rintro ⟨key, hkey, hsat⟩
    refine ⟨key, hkey, ?_⟩
    cases h : getItem p.localStorage key with
    | none => rw [h] at hsat; exact absurd hsat (by simp)
    | some v =>
      rw [h] at hsat
      refine ⟨v, rfl, ?_⟩
      simpa using hsat
  · rintro ⟨key, hkey, v, hv, hne⟩
    refine ⟨key, hkey, ?_⟩
    rw [hv]
    simpa using hne

/-- C9: the detection step is a read-only, total transition on the world: it
returns the world unchanged, its result is the pure aggregation
`detectEcommerceResult` of the page, and the result depends only on the
readable page state. -/
theorem detection_readonly_total (w wB : World) :
    (runDetection w).1 = w ∧
    (runDetection w).2 = detectEcommerceResult w.page ∧
    (w.page = wB.page → (runDetection w).2 = (runDetection wB).2) := by
  refine ⟨rfl, rfl, fun h => ?_⟩
  simp [runDetection, h]

/-- Witness for `detection_readonly_total` on two concrete worlds sharing a
page but differing in already-inserted UI. -/
theorem detection_readonly_total_witness :
    (runDetection { page := emptyPage, hostBody := [] }).1
      = { page := emptyPage, hostBody := [] } ∧
    (runDetection { page := emptyPage, hostBody := [] }).2
      = detectEcommerceResult emptyPage ∧
    (runDetection { page := emptyPage, hostBody := [] }).2
      = (runDetection { page := emptyPage, hostBody := ["overlay"] }).2 :=
  ⟨(detection_readonly_total { page := emptyPage, hostBody := [] }
      { page := emptyPage, hostBody := ["overlay"] }).1,
   (detection_readonly_total { page := emptyPage, hostBody := [] }
      { page := emptyPage, hostBody := ["overlay"] }).2.1,
   (detection_readonly_total { page := emptyPage, hostBody := [] }
      { page := emptyPage, hostBody := ["overlay"] }).2.2 rfl⟩

/-- Splitting a dot-free character list yields the single accumulated
segment. -/
theorem splitDotAux_no_dot (l cur : List Char) (h : '.' ∉ l) :
    splitDotAux cur l = [String.mk (cur.reverse ++ l)] := by
  induction l generalizing cur with
  | nil => simp [splitDotAux]
  | cons c rest ih =>
    simp only [List.mem_cons, not_or] at h
    simp only [splitDotAux]
    rw [if_neg fun he => h.1 he.symm, ih (c :: cur) h.2]
    simp

/-- C10: for every URL whose hostname consists of a single label (no dot in
the hostname), `getApexDomain` does not return a registrable domain: the JS
out-of-bounds read `parts[1]` is `undefined`, which stringifies in the
concatenation, so the result is the string `"undefined."` followed by that
label - never the label itself (and never an error: the function is
total). -/
theorem getApexDomain_single_label_undefined (url : String)
    (h : '.' ∉ (hostnameOf url).data) :
    getApexDomain url = "undefined." ++ hostnameOf url ∧
    getApexDomain url ≠ hostnameOf url := by
  have hsplit : splitDot (hostnameOf url) = [hostnameOf url] := by
    unfold splitDot
    rw [splitDotAux_no_dot _ [] h]
    rfl
  have hrev : (splitDot (hostnameOf url)).reverse = [hostnameOf url] := by
    rw [hsplit]
    rfl
  have hcond : ¬(([hostnameOf url] : List String).length ≥ 3 ∧
      (jsIndex [hostnameOf url] 1 = "co" ∨ jsIndex [hostnameOf url] 1 = "com")) := by
    rintro ⟨hlen, -⟩
    simp at hlen
  have hmain : getApexDomain url = "undefined." ++ hostnameOf url := by
    simp only [getApexDomain]
    rw [hrev, if_neg hcond]
    rfl
  refine ⟨hmain, ?_⟩
  rw [hmain]
  intro he
  have hlen := congrArg String.length he
  rw [String.length_append] at hlen
  have h10 : ("undefined." : String).length = 10 := rfl
  rw [h10] at hlen
  omega

/-- Witness for `getApexDomain_single_label_undefined` at the concrete URL
`http://localhost/x`, whose hostname is the single label `localhost`. -/
theorem getApexDomain_single_label_undefined_witness :
    '.' ∉ (hostnameOf "http://localhost/x").data ∧
    getApexDomain "http://localhost/x" = "undefined." ++ hostnameOf "http://localhost/x" ∧
    getApexDomain "http://localhost/x" ≠ hostnameOf "http://localhost/x" ∧
    getApexDomain "http://localhost/x" = "undefined.localhost" :=
  ⟨by decide,
   (getApexDomain_single_label_undefined "http://localhost/x" (by decide)).1,
   (getApexDomain_single_label_undefined "http://localhost/x" (by decide)).2,
   by decide⟩

/-- C1: `detectEcommerce` sets `isEcommerce` exactly when the OR of the six
detector outcomes holds, and its `reasons` list contains exactly the reason
strings of the detectors that fired, in the fixed evaluation order 1-6
(checkout form first, platform fingerprint last). -/
theorem detectEcommerce_or_reasons_ordered (p : PageState) :
    (detectEcommerceResult p).isEcommerce =
      (detectCheckoutForms p || detectProductListings p || detectCartLink p ||
       detectPrices p || detectCartInLocalStorage p ||
       (detectEcommercePlatform p).isSome) ∧
    (detectEcommerceResult p).reasons =
      (if detectCheckoutForms p then ["Checkout or cart form detected"] else []) ++
      (if detectProductListings p then
        ["Multiple product listings detected (CSS class-based detection)"] else []) ++
      (if detectCartLink p then ["Cart link detected"] else []) ++
      (if detectPrices p then ["Product price detected"] else []) ++
      (if detectCartInLocalStorage p then ["Cart data found in localStorage"] else []) ++
      (match detectEcommercePlatform p with
       | some r => [r]
       | none => []) := by
  cases h1 : detectCheckoutForms p <;>
  cases h2 : detectProductListings p <;>
  cases h3 : detectCartLink p <;>
  cases h4 : detectPrices p <;>
  cases h5 : detectCartInLocalStorage p <;>
  cases h6 : detectEcommercePlatform p <;>
  simp [detectEcommerceResult, h1, h2, h3, h4, h5, h6]

/-- The per-article update of the grouping loop preserves every key. -/
theorem groupUpdate_fst (apex : String) (a : Article) (g : String × List Article) :
    (if g.1 = apex then (g.1, g.2 ++ [a]) else g).1 = g.1 := by
  by_cases hg : g.1 = apex <;> simp [hg]

/-- A key absent from the key list is not found by the association lookup. -/
theorem findKey_eq_none (groups : List (String × List Article)) (d : String)
    (h : d ∉ groups.map Prod.fst) :
    groups.find? (fun g => g.1 == d) = none := by
  rw [List.find?_eq_none]
  intro g hg
  simp only [beq_iff_eq]
  intro he
  exact h (he ▸ List.mem_map_of_mem Prod.fst hg)

/-- Looking up after the key-preserving map commutes with looking up first. -/
theorem findKey_map_update (groups : List (String × List Article))
    (apex : String) (a : Article) (d : String) :
    (groups.map fun g => if g.1 = apex then (g.1, g.2 ++ [a]) else g).find?
        (fun g => g.1 == d) =
      (groups.find? (fun g => g.1 == d)).map
        fun g => if g.1 = apex then (g.1, g.2 ++ [a]) else g := by
  induction groups with
  | nil => rfl
  | cons g gs ih =>
    by_cases hd : g.1 = d
    · rw [List.map_cons,
        List.find?_cons_of_pos _ (by rw [groupUpdate_fst apex a g]; simp [hd]),
        List.find?_cons_of_pos _ (by simp [hd])]
      rfl
    · rw [List.map_cons,
        List.find?_cons_of_neg _ (by rw [groupUpdate_fst apex a g]; simp [hd]),
        List.find?_cons_of_neg _ (by simp [hd])]
      exact ih

/-- Key list after one grouping step: unchanged when the apex domain was
already seen, extended at the end on first sight. -/
theorem groupStep_keys (groups : List (String × List Article)) (a : Article) :
    (groupStep groups a).map Prod.fst =
      if getApexDomain a.url ∈ groups.map Prod.fst then groups.map Prod.fst
      else groups.map Prod.fst ++ [getApexDomain a.url] := by
  unfold groupStep
  by_cases h : getApexDomain a.url ∈ groups.map Prod.fst
  · rw [if_pos h, if_pos h, List.map_map]
    exact List.map_congr_left fun g _ => groupUpdate_fst _ a g
  · rw [if_neg h, if_neg h, List.map_append]
    rfl

/-- Group membership after one grouping step: the stepped article is appended
to its apex domain's group, every other group is unchanged. -/
theorem groupStep_members (groups : List (String × List Article)) (a : Article)
    (d : String) :
    groupMembers (groupStep groups a) d =
      if getApexDomain a.url = d then groupMembers groups d ++ [a]
      else groupMembers groups d := by
  unfold groupStep groupMembers
  by_cases h : getApexDomain a.url ∈ groups.map Prod.fst
  · rw [if_pos h, findKey_map_update]
    cases hf : groups.find? (fun g => g.1 == d) with
    | none =>
      have hd : d ∉ groups.map Prod.fst := by
        intro hmem
        rw [List.find?_eq_none] at hf
        rcases List.mem_map.mp hmem with ⟨g, hg, hgd⟩
        exact hf g hg (by simp [hgd])
      have hne : getApexDomain a.url ≠ d := fun he => hd (he ▸ h)
      rw [if_neg hne]
      rfl
    | some g =>
      have hgd : g.1 = d := by
        have := List.find?_some hf
        simpa using this
      by_cases hda : getApexDomain a.url = d
      · rw [if_pos hda, Option.map_some']
        rw [if_pos (by rw [hgd, hda])]
      · rw [if_neg hda, Option.map_some']
        rw [if_neg (by rw [hgd]; exact fun he => hda he.symm)]
  · rw [if_neg h, List.find?_append]
    by_cases hda : getApexDomain a.url = d
    · rw [if_pos hda]
      rw [findKey_eq_none groups d (hda ▸ h), Option.none_or,
        List.find?_cons_of_pos _ (by simp [hda])]
      rfl
    · rw [if_neg hda]
      rw [List.find?_cons_of_neg _ (by simp [hda])]
      cases hf : groups.find? (fun g => g.1 == d) <;> rfl

/-- Folding one more article is one grouping step. -/
theorem groupBy_snoc (arts : List Article) (a : Article) :
    groupByApexDomain (arts ++ [a]) = groupStep (groupByApexDomain arts) a := by
  unfold groupByApexDomain
  rw [List.foldl_append]
  rfl

/-- First-seen domain order after one more article. -/
theorem firstSeenDomains_snoc (arts : List Article) (a : Article) :
    firstSeenDomains (arts ++ [a]) =
      if getApexDomain a.url ∈ firstSeenDomains arts then firstSeenDomains arts
      else firstSeenDomains arts ++ [getApexDomain a.url] := by
  unfold firstSeenDomains
  rw [List.map_append, List.foldl_append]
  rfl

/-- The grouping keys are the article domains in first-seen order. -/
theorem groupBy_keys (arts : List Article) :
    (groupByApexDomain arts).map Prod.fst = firstSeenDomains arts := by
  induction arts using List.reverseRecOn with
  | nil => rfl
  | append_singleton arts a ih =>
    rw [groupBy_snoc, firstSeenDomains_snoc, groupStep_keys, ih]

/-- Each group holds exactly the input articles of its domain, in input
order. -/
theorem groupBy_members (arts : List Article) (d : String) :
    groupMembers (groupByApexDomain arts) d =
      arts.filter fun a => getApexDomain a.url == d := by
  induction arts using List.reverseRecOn with
  | nil => rfl
  | append_singleton arts a ih =>
    rw [groupBy_snoc, groupStep_members, List.filter_append, ih]
    by_cases h : getApexDomain a.url = d
    · rw [if_pos h]
      simp [h]
    · rw [if_neg h]
      simp [h]

/-- C6: the grouping loop keys every article by the apex domain of its URL's
hostname (`getApexDomain`, which keeps three labels when the second-level
label is `co` or `com`), the group keys appear in first-seen order, each
group lists its articles in input order, and on the three-article fixture it
produces exactly the two groups `"shop.co.uk"` and `"example.com"` with
input order preserved. -/
theorem groupByApexDomain_orders_and_example :
    (∀ arts : List Article,
        (groupByApexDomain arts).map Prod.fst = firstSeenDomains arts ∧
        ∀ d : String,
          groupMembers (groupByApexDomain arts) d =
            arts.filter fun a => getApexDomain a.url == d) ∧
    getApexDomain "https://a.shop.co.uk/x" = "shop.co.uk" ∧
    getApexDomain "https://x.example.com/z" = "example.com" ∧
    groupByApexDomain [exArticleA, exArticleB, exArticleX] =
      [("shop.co.uk", [exArticleA, exArticleB]), ("example.com", [exArticleX])] :=
  ⟨fun arts => ⟨groupBy_keys arts, fun d => groupBy_members arts d⟩,
   by decide, by decide, by decide⟩
